import Mathlib

/-!
Verification of the changeset/change-log engine in `c3nav/editor/models.py`.

The shallow embedding below translates the `ChangeSet` and `Change` Django
models and their methods into Lean definitions.  Python exceptions become an
`Except PyError` result type; the mutable overlay projection
(`updated_values` / `deleted_existing` dictionaries on a `ChangeSet`
instance) becomes an explicit `Projection` value threaded through a fold;
database rows become plain structures and the canonical store becomes an
explicit list of `(model_name, pk)` pairs.
-/

/-- The Python exceptions that the source raises, by class.  `ValidationError`,
`TypeError`, `ValueError`, `LookupError` (from `apps.get_model`),
`ObjectDoesNotExist` (from `Model.objects.get`) and `NotImplementedError`
all occur in `editor/models.py`. -/
inductive PyError where
  | validationError (msg : String)
  | typeError (msg : String)
  | valueError (msg : String)
  | lookupError (msg : String)
  | attributeError (msg : String)
  | objectDoesNotExist
  | notImplementedError
deriving DecidableEq, Repr

/-- An object identity as used by `Change.obj_pk`: either a persisted numeric
primary key (Python `int`) or the string encoding of a pending creation
(Python `str`, such as `"c7"`). -/
inductive ObjPK where
  | num (n : Nat)
  | str (s : String)
deriving DecidableEq, Repr

/-- A value decoded by `json.loads`.  No claim depends on JSON semantics, so a
decoded value is modelled as a tagged copy of its serialized text
(`json.loads` is a deterministic function of that text). -/
structure JsonValue where
  raw : String
deriving DecidableEq, Repr

/-- Deterministic model of `json.loads` on the serialized field value. -/
def jsonLoads (s : String) : JsonValue := ⟨s⟩

/-- Modelled from the spec: the registry behind `apps.get_model('mapdata', name)`.
The mapdata application's model classes are outside `src/`; §3 of the spec
requires a model name to identify a concrete, non-abstract entity type of the
governed schema, and the spec's scenarios use the models "Area" and "POI".
A model class is identified by its name (`apps.get_model` is injective on
registered names). -/
def mapdataModelNames : List String := ["Area", "POI"]

/-- Modelled from the spec: `ModelInstanceWrapper` from `c3nav.editor.wrappers`
(not under `src/`).  §4.3: the wrapper facade carries the owning changeset,
the wrapped model and the object's identity (`pk`), which is a persisted
numeric id, a pending-creation string id, or `None` for an unsaved object. -/
structure ModelInstanceWrapper where
  changeset_id : Nat
  model_name : String
  pk : Option ObjPK
deriving DecidableEq, Repr

/-- A related `Change` row as seen through a foreign key
(`Change.deletes_change`, `Change.created_object`): the fields of the
referenced row that the source reads. -/
structure ChangeRef where
  pk : Nat
  changeset_id : Nat
  model_name : Option String
  action : String
deriving DecidableEq, Repr

/-- One `Change` row (`editor/models.py`, class `Change`).  `set_object`
models the in-memory `_set_object` cache, which is `None` on a freshly
constructed or freshly loaded instance and is only assigned by the `obj`
property.  The `author` and `created` columns carry attribution and
timestamps that no claim refers to and are omitted. -/
structure Change where
  pk : Option Nat
  changeset_id : Nat
  action : String
  deletes_change : Option ChangeRef
  model_name : Option String
  existing_object_pk : Option Nat
  created_object : Option ChangeRef
  field_name : Option String
  field_value : Option String
  set_object : Option ModelInstanceWrapper
deriving DecidableEq, Repr

/-- The `Change.model_class` property: `apps.get_model('mapdata', model_name)`
for a non-`None` name, `None` otherwise; an unregistered name raises
`LookupError`.  Classes are identified by their names. -/
def model_class (c : Change) : Except PyError (Option String) :=
  match c.model_name with
  | none => .ok none
  | some n =>
    if n ∈ mapdataModelNames then .ok (some n)
    else .error (.lookupError "No installed app with label mapdata has model.")

/-- `model_class` of a `Change` row reached through a foreign key. -/
def ref_model_class (r : ChangeRef) : Except PyError (Option String) :=
  match r.model_name with
  | none => .ok none
  | some n =>
    if n ∈ mapdataModelNames then .ok (some n)
    else .error (.lookupError "No installed app with label mapdata has model.")

/-- The `Change.obj_pk` property: the cached object's `pk` if `_set_object` is
set, else the persisted id, else the pending-creation string
`'c' + str(self.created_object.changeset_id)`, else `TypeError`. -/
def obj_pk (c : Change) : Except PyError (Option ObjPK) :=
  match c.set_object with
  | some w => .ok w.pk
  | none =>
    match c.existing_object_pk with
    | some n => .ok (some (.num n))
    | none =>
      match c.created_object with
      | some r => .ok (some (.str ("c" ++ toString r.changeset_id)))
      | none => .error (.typeError "existing_model_pk or created_object have to be set.")

/-- The temporary identity that `ChangeSet.add_create` assigns to a freshly
created object: `obj.pk = 'c%d' % change.pk`, where `change` is the newly
saved create `Change`. -/
def add_create_assigned_pk (changePk : Nat) : ObjPK :=
  .str ("c" ++ toString changePk)

/-- The overlay projection held on a `ChangeSet` instance: `updated_values`
(dict from model class, then object identity, then field name, to the decoded
value) and `deleted_existing` (dict from model class to a set of persisted
ids).  Dictionaries become functions; a dict key may be `None` in Python, so
the model-class and field-name keys are `Option String` and the object
identity key is `Option ObjPK`. -/
structure Projection where
  updated_values : Option String → Option ObjPK → Option String → Option JsonValue
  deleted_existing : Option String → Nat → Bool

/-- The dictionaries a fresh `ChangeSet.__init__` starts with. -/
def emptyProjection : Projection := ⟨fun _ _ _ => none, fun _ _ => false⟩

/-- `ChangeSet._parse_change`: folds one `Change` into the projection.  An
`update` stores the decoded field value under
`updated_values[model_class][obj_pk][field_name]`; a `delete` of a persisted
object adds its id to `deleted_existing[model_class]`; every other action
(including `delchange`, `m2m_add` and `m2m_remove`) leaves both structures
untouched.  Exceptions raised while reading `model_class`, `obj_pk` or
decoding `field_value` propagate. -/
def _parse_change (p : Projection) (c : Change) : Except PyError Projection :=
  if c.action = "update" then
    match model_class c with
    | .error e => .error e
    | .ok mc =>
      match obj_pk c with
      | .error e => .error e
      | .ok opk =>
        match c.field_value with
        | none => .error (.typeError "the JSON object must be str, not NoneType")
        | some fv =>
          .ok { p with updated_values := fun m k f =>
                  if m = mc ∧ k = opk ∧ f = c.field_name then some (jsonLoads fv)
                  else p.updated_values m k f }
  else if c.action = "delete" then
    match c.existing_object_pk with
    | some epk =>
      match model_class c with
      | .error e => .error e
      | .ok mc =>
        .ok { p with deleted_existing := fun m k =>
                if m = mc ∧ k = epk then true else p.deleted_existing m k }
    | none => .ok p
  else .ok p

/-- `ChangeSet.parse_changes`: fold all changes, in log order, into the
projection the instance currently holds (`self.parsed` is initialised to
`False` and never set, so a repeated call folds the same log again into the
dictionaries left by the previous call). -/
def parse_changes (p : Projection) : List Change → Except PyError Projection
  | [] => .ok p
  | c :: rest =>
    match _parse_change p c with
    | .error e => .error e
    | .ok q => parse_changes q rest

/-- The canonical store as the engine sees it: which `(model_name, pk)` pairs
currently exist (`Model.objects.get(pk=...)` succeeds exactly on these). -/
structure MapStore where
  objects : List (String × Nat)
deriving DecidableEq, Repr

/-- The `Change.obj` property (getter): return the cached `_set_object` if
present; otherwise, for a persisted target, reject if `created_object` is also
set, then fetch the object from the canonical store and wrap it; for a
pending-creation target, check model and changeset consistency and then hit
the source's `raise NotImplementedError`; if neither reference is set, raise
`TypeError`. -/
def obj (st : MapStore) (c : Change) : Except PyError ModelInstanceWrapper :=
  match c.set_object with
  | some w => .ok w
  | none =>
    match c.existing_object_pk with
    | some epk =>
      match c.created_object with
      | some _ => .error (.typeError "existing_object_pk and created_object can not both be set.")
      | none =>
        match model_class c with
        | .error e => .error e
        | .ok none => .error (.attributeError "NoneType object has no attribute objects")
        | .ok (some m) =>
          if (m, epk) ∈ st.objects then
            .ok { changeset_id := c.changeset_id, model_name := m, pk := some (.num epk) }
          else .error .objectDoesNotExist
    | none =>
      match c.created_object with
      | some r =>
        match ref_model_class r with
        | .error e => .error e
        | .ok rmc =>
          match model_class c with
          | .error e => .error e
          | .ok mc =>
            if rmc ≠ mc then
              .error (.typeError "created_object model and change model do not match.")
            else if r.changeset_id ≠ c.changeset_id then
              .error (.typeError "created_object belongs to a different changeset.")
            else .error .notImplementedError
      | none => .error (.typeError "existing_model_pk or created_object have to be set.")

/-- The `Change.model_class` setter: `None` clears the name; otherwise the
value must be a concrete `mapdata` model (membership in the registry models
the three checks: django model, non-abstract, `app_label == 'mapdata'`). -/
def model_class_setter (c : Change) (value : Option String) : Except PyError Change :=
  match value with
  | none => .ok { c with model_name := none }
  | some name =>
    if name ∈ mapdataModelNames then .ok { c with model_name := some name }
    else .error (.valueError "value is not a mapdata model")

/-- Model of Python `int(...)` applied to the tail `value.pk[1:]` of a
pending-creation id (the string is modelled by its character list): a
non-empty all-digit string parses as a decimal number, anything else raises
`ValueError` (`int()` also accepts sign and whitespace, which the engine's
`'c%d'` encoding never produces). -/
def pyInt? (cs : List Char) : Option Nat :=
  if cs.isEmpty then none
  else if cs.all (fun ch => Nat.ble 48 ch.toNat && Nat.ble ch.toNat 57) then
    some (cs.foldl (fun acc ch => acc * 10 + (ch.toNat - 48)) 0)
  else none

/-- The `Change.obj` setter.  A raw model instance is first wrapped through
the changeset (`changeset.wrap`), so the input is modelled as an already
wrapped object.  A string `pk` marks a pending creation: the wrapper must
belong to the same changeset, the model class is recorded, and the creating
`Change` row is parsed out of the id and fetched (`Change.objects.get`,
which coerces the string to `int` first).  Otherwise the current
`model_class` is evaluated, the new one recorded, an unsaved object (`pk is
None`) is rejected, and a numeric `pk` is stored as `existing_object_pk`.
`self.changeset.pk` is modelled by `c.changeset_id` (the two are kept equal
by `ChangeSet._new_change`). -/
def obj_setter (changeStore : List ChangeRef) (c : Change) (value : ModelInstanceWrapper) :
    Except PyError Change :=
  match value.pk with
  | some (.str s) =>
    if value.changeset_id ≠ c.changeset_id then
      .error (.valueError "value is a Change instance but belongs to a different changeset.")
    else
      match model_class_setter c (some value.model_name) with
      | .error e => .error e
      | .ok c1 =>
        match pyInt? (s.data.drop 1) with
        | none => .error (.valueError "invalid literal for int with base 10")
        | some n =>
          match changeStore.find? (fun r => r.pk == n) with
          | none => .error .objectDoesNotExist
          | some r =>
            .ok { c1 with created_object := some r, existing_object_pk := none,
                          set_object := some value }
  | some (.num n) =>
    match model_class c with
    | .error e => .error e
    | .ok _model_class_before =>
      match model_class_setter c (some value.model_name) with
      | .error e => .error e
      | .ok c1 =>
        .ok { c1 with existing_object_pk := some n, created_object := none,
                      set_object := some value }
  | none =>
    match model_class c with
    | .error e => .error e
    | .ok _model_class_before =>
      match model_class_setter c (some value.model_name) with
      | .error e => .error e
      | .ok _c1 =>
        .error (.valueError "object is not saved yet and cannot be referenced")

/-- `Change.clean`: the validation run before every save.  A `delchange` must
reference a change of the same changeset and carry no other payload; any
other action must not reference a change, must name a model, must have a
resolvable target (`model_class` for `create`, the `obj` property otherwise,
with `TypeError` and `ObjectDoesNotExist` converted to `ValidationError`);
`create` and `delete` must not carry a field name or value. -/
def clean (st : MapStore) (c : Change) : Except PyError Unit :=
  if c.action = "delchange" then
    match c.deletes_change with
    | none => .error (.validationError "deletes_change has to be set if action is delchange.")
    | some d =>
      if d.changeset_id ≠ c.changeset_id then
        .error (.validationError "deletes_change refers to a change from a different changeset.")
      else if c.model_name ≠ none then
        .error (.validationError "model_name must not be set if action is delchange.")
      else if c.existing_object_pk ≠ none then
        .error (.validationError "existing_object_pk must not be set if action is delchange.")
      else if c.created_object ≠ none then
        .error (.validationError "created_object must not be set if action is delchange.")
      else if c.field_name ≠ none then
        .error (.validationError "field_name must not be set if action is delchange.")
      else if c.field_value ≠ none then
        .error (.validationError "field_value must not be set if action is delchange.")
      else .ok ()
  else if c.deletes_change ≠ none then
    .error (.validationError "deletes_change can only be set if action is delchange.")
  else if c.model_name = none then
    .error (.validationError "model_name has to be set if action is not delchange.")
  else
    match (if c.action = "create" then (model_class c).map (fun _ => ())
           else (obj st c).map (fun _ => ())) with
    | .error (.typeError msg) => .error (.validationError msg)
    | .error .objectDoesNotExist => .error (.validationError "existing object does not exist.")
    | .error e => .error e
    | .ok _ =>
      if c.action = "create" ∨ c.action = "delete" then
        if c.field_name ≠ none then
          .error (.validationError "field_name must not be set if action is create or delete.")
        else if c.field_value ≠ none then
          .error (.validationError "field_value must not be set if action is create or delete.")
        else .ok ()
      else .ok ()

/-- The `ChangeSet` row: creation time, optional author, and the two
lifecycle timestamps (`applied_by` attribution is omitted, no claim reads
it).  Timestamps are modelled as naturals. -/
structure ChangeSet where
  pk : Nat
  created : Nat
  author : Option Nat
  proposed : Option Nat
  applied : Option Nat
deriving DecidableEq, Repr

/-- `Change.save`: run `clean`, refuse to edit an already persisted change,
refuse to append to a changeset whose `proposed` or `applied` timestamp is
set, and otherwise persist (`super().save()`, modelled as success).  An error
result means nothing was inserted. -/
def Change.save (st : MapStore) (cs : ChangeSet) (c : Change) : Except PyError Unit :=
  match clean st c with
  | .error e => .error e
  | .ok _ =>
    if c.pk ≠ none then .error (.typeError "change objects can not be edited.")
    else if cs.proposed ≠ none ∨ cs.applied ≠ none then
      .error (.typeError "can not add change object to uneditable changeset.")
    else .ok ()

/-- `ChangeSet.qs_base`: all changesets, with applied ones hidden when
`hide_applied` is set (only `applied__isnull=True` is filtered; `proposed`
is not consulted). -/
def qs_base (db : List ChangeSet) (hide_applied : Bool) : List ChangeSet :=
  if hide_applied then db.filter (fun cs => cs.applied == none) else db

/-- `ChangeSet.qs_for_request`: `qs_base` restricted to anonymous changesets
plus, for an authenticated user, the user's own.  The user is modelled as
`Option Nat` (`none` when `request.user.is_authenticated()` is false). -/
def qs_for_request (db : List ChangeSet) (user : Option Nat) : List ChangeSet :=
  match user with
  | some u => (qs_base db true).filter (fun cs => cs.author == none || cs.author == some u)
  | none => (qs_base db true).filter (fun cs => cs.author == none)

/-- One step of scanning a queryset for its latest-created element. -/
def pick_later_created (acc : Option ChangeSet) (cs : ChangeSet) : Option ChangeSet :=
  match acc with
  | none => some cs
  | some best => if best.created < cs.created then some cs else some best

/-- `order_by('-created').first()` on a queryset: the first element of a
stable descending sort by `created`, i.e. the earliest listed changeset with
maximal `created` (tie order among equal timestamps is the store's; the model
keeps the queryset's order). -/
def first_by_created_desc (l : List ChangeSet) : Option ChangeSet :=
  l.foldl pick_later_created none

/-- How `ChangeSet.get_for_request` resolved the active changeset: from the
session reference, from the author's most recent changeset, or by creating a
fresh one with the given author. -/
inductive ResolvedChangeSet where
  | fromSession (cs : ChangeSet)
  | fromRecent (cs : ChangeSet)
  | fresh (author : Option Nat)
deriving DecidableEq, Repr

/-- `ChangeSet.get_for_request`: try the session's `changeset_pk` against
`qs_for_request` first; failing that, for an authenticated user take the most
recent of the user's own changesets in the queryset; failing that, create a
new changeset (authored by the user when authenticated).  The session
write-back and the author fix-up save on the session hit mutate nothing a
claim reads and are elided; the result records which branch resolved. -/
def get_for_request (db : List ChangeSet) (user : Option Nat)
    (session_changeset_pk : Option Nat) : ResolvedChangeSet :=
  let qs := qs_for_request db user
  let sessionHit : Option ChangeSet :=
    match session_changeset_pk with
    | some spk => (qs.filter (fun cs => cs.pk == spk)).head?
    | none => none
  match sessionHit with
  | some cs => .fromSession cs
  | none =>
    match user with
    | some u =>
      match first_by_created_desc (qs.filter (fun cs => cs.author == some u)) with
      | some cs => .fromRecent cs
      | none => .fresh (some u)
    | none => .fresh none

/-! ## Concrete inputs

Rows and stores used as concrete inputs by counterexamples and witnesses. -/

/-- A blank, freshly constructed `Change` of changeset 1 with no payload. -/
def noChange : Change :=
  { pk := none, changeset_id := 1, action := "", deletes_change := none, model_name := none,
    existing_object_pk := none, created_object := none, field_name := none, field_value := none,
    set_object := none }

/-- Update of field "name" of the persisted Area 42 to the JSON string "X". -/
def cUpdX : Change :=
  { noChange with pk := some 1, action := "update", model_name := some "Area",
                  existing_object_pk := some 42, field_name := some "name",
                  field_value := some "\x22X\x22" }

/-- The row of `cUpdX` as seen through a foreign key. -/
def refUpd1 : ChangeRef :=
  { pk := 1, changeset_id := 1, model_name := some "Area", action := "update" }

/-- A `delchange` voiding `cUpdX` (same changeset, no other payload). -/
def cDelChangeX : Change :=
  { noChange with pk := some 2, action := "delchange", deletes_change := some refUpd1 }

/-- The create `Change` behind the pending creation "c7": row 7 of changeset 1. -/
def refCreate7 : ChangeRef :=
  { pk := 7, changeset_id := 1, model_name := some "POI", action := "create" }

/-- An update targeting the pending creation of `refCreate7`, as loaded from
the store (`_set_object` not populated). -/
def cUpdOnCreated : Change :=
  { noChange with action := "update", model_name := some "POI",
                  created_object := some refCreate7, field_name := some "title",
                  field_value := some "\x22Lobby\x22" }

/-- An `m2m_add` on the persisted Area 42, field "groups", value `[1]`. -/
def cM2M : Change :=
  { noChange with pk := some 3, action := "m2m_add", model_name := some "Area",
                  existing_object_pk := some 42, field_name := some "groups",
                  field_value := some "[1]" }

/-- A valid `delchange` voiding row 3 of the same changeset. -/
def cDelChangeValid : Change :=
  { noChange with action := "delchange",
                  deletes_change := some { pk := 3, changeset_id := 1, model_name := none,
                                           action := "update" } }

/-- A `delchange` that also carries a model name. -/
def cDelChangeWithModel : Change :=
  { noChange with action := "delchange",
                  deletes_change := some { pk := 3, changeset_id := 1, model_name := none,
                                           action := "update" },
                  model_name := some "Area" }

/-- A `delchange` referencing a change of changeset 2 from changeset 1. -/
def cDelChangeCross : Change :=
  { noChange with action := "delchange",
                  deletes_change := some { pk := 9, changeset_id := 2, model_name := none,
                                           action := "update" } }

/-- A `create` that also carries a field name. -/
def cCreateWithField : Change :=
  { noChange with action := "create", model_name := some "POI", field_name := some "title" }

/-- An update that names a model and target but no field name or value. -/
def cUpdNoField : Change :=
  { noChange with action := "update", model_name := some "Area",
                  existing_object_pk := some 42 }

/-- A delete of the persisted Area 42. -/
def cDel42 : Change :=
  { noChange with action := "delete", model_name := some "Area",
                  existing_object_pk := some 42 }

/-- A `Change` with both target references set, as loaded from the store. -/
def cBothSet : Change :=
  { noChange with action := "update", model_name := some "Area",
                  existing_object_pk := some 42, created_object := some refUpd1 }

/-- Updates of field "name" of Area 42 to "East Wing" and then "East Wing 2". -/
def cUpdEW1 : Change :=
  { noChange with pk := some 1, action := "update", model_name := some "Area",
                  existing_object_pk := some 42, field_name := some "name",
                  field_value := some "\x22East Wing\x22" }

/-- The later of the two updates on the same field of Area 42. -/
def cUpdEW2 : Change :=
  { noChange with pk := some 2, action := "update", model_name := some "Area",
                  existing_object_pk := some 42, field_name := some "name",
                  field_value := some "\x22East Wing 2\x22" }

/-- An update of field "title" of POI 7 (log used by the idempotence witness). -/
def cUpdTitle : Change :=
  { noChange with pk := some 4, action := "update", model_name := some "POI",
                  existing_object_pk := some 7, field_name := some "title",
                  field_value := some "\x22Lobby\x22" }

/-- A store holding only the Area with id 42. -/
def stArea42 : MapStore := ⟨[("Area", 42)]⟩

/-- An empty canonical store. -/
def stEmpty : MapStore := ⟨[]⟩

/-- A proposed (not yet applied) changeset authored by user 5. -/
def csProposed : ChangeSet :=
  { pk := 1, created := 10, author := some 5, proposed := some 99, applied := none }

/-- An open, unproposed changeset authored by user 5. -/
def csOpen : ChangeSet :=
  { pk := 2, created := 10, author := some 5, proposed := none, applied := none }

/-- A wrapper for the pending creation "c7" of changeset 1. -/
def wCreated : ModelInstanceWrapper :=
  { changeset_id := 1, model_name := "POI", pk := some (.str "c7") }

/-- A wrapper for the persisted Area 42 in changeset 1. -/
def wNum : ModelInstanceWrapper :=
  { changeset_id := 1, model_name := "Area", pk := some (.num 42) }

/-- The change produced by assigning `wCreated` as the target of `noChange`. -/
def cAfterSetter : Change :=
  match obj_setter [refCreate7] noChange wCreated with
  | .ok c => c
  | .error _ => noChange

/-- The projection folded from the single-update log `[cUpdTitle]`. -/
def pTitle : Projection :=
  match parse_changes emptyProjection [cUpdTitle] with
  | .ok p => p
  | .error _ => emptyProjection

/-- The projection folded from the two East-Wing updates. -/
def pEastWing : Projection :=
  match parse_changes emptyProjection ([] ++ cUpdEW1 :: ([] ++ [cUpdEW2])) with
  | .ok p => p
  | .error _ => emptyProjection

/-! ## Projection algebra

`merge p q` is `p` overridden by `q`: the folded dictionaries only ever gain
entries, so folding a log on top of an existing projection is the same as
folding it on the empty projection and overriding. -/

/-- Override projection `p` with every entry of projection `q`. -/
def Projection.merge (p q : Projection) : Projection :=
  ⟨fun m k f =>
      match q.updated_values m k f with
      | some v => some v
      | none => p.updated_values m k f,
   fun m k => p.deleted_existing m k || q.deleted_existing m k⟩

theorem Projection.eq_of_fields {p q : Projection}
    (hu : p.updated_values = q.updated_values)
    (hd : p.deleted_existing = q.deleted_existing) : p = q := by
  cases p; cases q; simp_all

theorem merge_emptyProjection (p : Projection) : p.merge emptyProjection = p := by
  apply Projection.eq_of_fields
  · funext m k f
    simp [Projection.merge, emptyProjection]
  · funext m k
    simp [Projection.merge, emptyProjection]

theorem merge_self (p : Projection) : p.merge p = p := by
  apply Projection.eq_of_fields
  · funext m k f
    cases h : p.updated_values m k f <;> simp [Projection.merge, h]
  · funext m k
    simp [Projection.merge]

theorem parse_change_merge (p q : Projection) (c : Change) :
    _parse_change (p.merge q) c = Except.map p.merge (_parse_change q c) := by
  unfold _parse_change
  by_cases h1 : c.action = "update"
  · simp only [if_pos h1]
    cases hm : model_class c with
    | error e => simp [Except.map]
    | ok mc =>
      cases hp : obj_pk c with
      | error e => simp [Except.map]
      | ok opk =>
        cases hv : c.field_value with
        | none => simp [Except.map]
        | some fv =>
          simp only [Except.map]
          congr 1
          apply Projection.eq_of_fields
          · funext m k f
            by_cases hc : m = mc ∧ k = opk ∧ f = c.field_name <;>
              simp [Projection.merge, hc]
          · funext m k
            simp [Projection.merge]
  · simp only [if_neg h1]
    by_cases h2 : c.action = "delete"
    · simp only [if_pos h2]
      cases he : c.existing_object_pk with
      | none => simp [Except.map]
      | some epk =>
        cases hm : model_class c with
        | error e => simp [Except.map]
        | ok mc =>
          simp only [Except.map]
          congr 1
          apply Projection.eq_of_fields
          · funext m k f
            simp [Projection.merge]
          · funext m k
            by_cases hcm : m = mc
            · by_cases hck : k = epk
              · simp [Projection.merge, hcm, hck]
              · simp [Projection.merge, hcm, hck]
            · simp [Projection.merge, hcm]
    · simp [if_neg h2, Except.map]

theorem parse_changes_merge (L : List Change) (p q : Projection) :
    parse_changes (p.merge q) L = Except.map p.merge (parse_changes q L) := by
  induction L generalizing q with
  | nil => simp [parse_changes, Except.map]
  | cons c rest ih =>
    simp only [parse_changes]
    rw [parse_change_merge]
    cases h : _parse_change q c with
    | error e => simp [Except.map]
    | ok q2 => simp [Except.map, ih]

theorem parse_changes_append (L1 L2 : List Change) (p : Projection) :
    parse_changes p (L1 ++ L2) =
      match parse_changes p L1 with
      | .error e => .error e
      | .ok q => parse_changes q L2 := by
  induction L1 generalizing p with
  | nil => simp [parse_changes]
  | cons c rest ih =>
    simp only [List.cons_append, parse_changes]
    cases h : _parse_change p c with
    | error e => rfl
    | ok q => exact ih q

/-- Folding a queryset through `pick_later_created` yields an element of the
accumulator-or-list with maximal `created`. -/
theorem pick_later_created_spec (l : List ChangeSet) :
    ∀ (acc : Option ChangeSet) (m : ChangeSet), l.foldl pick_later_created acc = some m →
      (acc = some m ∨ m ∈ l) ∧ (∀ x, acc = some x → x.created ≤ m.created) ∧
      (∀ x ∈ l, x.created ≤ m.created) := by
  induction l with
  | nil =>
    intro acc m h
    simp only [List.foldl_nil] at h
    refine ⟨Or.inl h, ?_, by simp⟩
    intro x hx
    rw [h] at hx
    cases hx
    exact le_refl _
  | cons c rest ih =>
    intro acc m h
    rw [List.foldl_cons] at h
    obtain ⟨hmem, hacc, hrest⟩ := ih (pick_later_created acc c) m h
    have hcbound : c.created ≤ m.created := by
      cases acc with
      | none => exact hacc c rfl
      | some best =>
        by_cases hlt : best.created < c.created
        · exact hacc c (by simp [pick_later_created, hlt])
        · exact le_trans (Nat.le_of_not_lt hlt) (hacc best (by simp [pick_later_created, hlt]))
    refine ⟨?_, ?_, ?_⟩
    · rcases hmem with hp | hr
      · cases acc with
        | none =>
          simp [pick_later_created] at hp
          exact Or.inr (by simp [hp])
        | some best =>
          by_cases hlt : best.created < c.created
          · simp [pick_later_created, hlt] at hp
            exact Or.inr (by simp [hp])
          · simp [pick_later_created, hlt] at hp
            exact Or.inl (by rw [hp])
      · exact Or.inr (List.mem_cons_of_mem _ hr)
    · intro x hx
      cases acc with
      | none => cases hx
      | some best =>
        cases hx
        by_cases hlt : x.created < c.created
        · exact le_trans (Nat.le_of_lt hlt) hcbound
        · exact hacc x (by simp [pick_later_created, hlt])
    · intro x hx
      rcases List.mem_cons.mp hx with hxc | hxr
      · rw [hxc]; exact hcbound
      · exact hrest x hxr

/-- The changeset returned by `order_by('-created').first()` belongs to the
queryset and has maximal `created` in it. -/
theorem first_by_created_desc_spec (l : List ChangeSet) (m : ChangeSet)
    (h : first_by_created_desc l = some m) : m ∈ l ∧ ∀ x ∈ l, x.created ≤ m.created := by
  obtain ⟨hm, _, hb⟩ := pick_later_created_spec l none m h
  rcases hm with h0 | h0
  · cases h0
  · exact ⟨h0, hb⟩

/-! ## Claim theorems -/

/-- C1, counterexample: appending Change A (`cUpdX`, an update setting field
"name" on Area 42) and then Change B (`cDelChangeX`, a delchange voiding A)
yields a projection in which `updated_values` STILL holds A's entry — folding
the delete-change does not remove the voided change's contribution, contrary
to the claim that the field entry is absent. -/
theorem parse_delchange_keeps_contribution_cex :
    Except.map (fun p => p.updated_values (some "Area") (some (.num 42)) (some "name"))
      (parse_changes emptyProjection [cUpdX, cDelChangeX]) =
      .ok (some (jsonLoads "\x22X\x22")) := rfl

/-- C1, amended: folding a delete-change entry is a no-op on the overlay
projection — `_parse_change` only acts on `update` and `delete` actions, so a
`delchange` leaves both `updated_values` and `deleted_existing` untouched and
the voided change's contribution remains. -/
theorem parse_delchange_noop (p : Projection) (c : Change) (h : c.action = "delchange") :
    _parse_change p c = .ok p := by
  unfold _parse_change
  rw [h]
  simp

/-- C1, witness for `parse_delchange_noop` at the concrete delchange `cDelChangeX`. -/
theorem parse_delchange_noop_witness :
    cDelChangeX.action = "delchange" ∧
    _parse_change emptyProjection cDelChangeX = .ok emptyProjection :=
  ⟨rfl, parse_delchange_noop emptyProjection cDelChangeX rfl⟩

/-- C3, counterexample: an `m2m_add` change on Area 42, field "groups", is
not folded into `updated_values` — the lookup that the claim says is
populated is still empty after the fold. -/
theorem parse_m2m_not_folded_cex :
    Except.map (fun p => p.updated_values (some "Area") (some (.num 42)) (some "groups"))
      (parse_changes emptyProjection [cM2M]) = .ok none := rfl

/-- C3, amended: `m2m_add` and `m2m_remove` changes are NOT folded into the
overlay projection at all — `_parse_change` handles only `update` and
`delete` and leaves the projection unchanged for relation changes. -/
theorem parse_m2m_noop (p : Projection) (c : Change)
    (h : c.action = "m2m_add" ∨ c.action = "m2m_remove") : _parse_change p c = .ok p := by
  unfold _parse_change
  rcases h with h | h <;> rw [h] <;> simp

/-- C3, witness for `parse_m2m_noop` at the concrete `m2m_add` change `cM2M`. -/
theorem parse_m2m_noop_witness :
    (cM2M.action = "m2m_add" ∨ cM2M.action = "m2m_remove") ∧
    _parse_change emptyProjection cM2M = .ok emptyProjection :=
  ⟨Or.inl rfl, parse_m2m_noop emptyProjection cM2M (Or.inl rfl)⟩

/-- C6: folding the log is idempotent.  `ChangeSet.parse_changes` never sets
`self.parsed`, so a second call folds the same log again into the projection
produced by the first call; because every fold step only overwrites entries
with the values the first pass already wrote, the second pass reproduces the
same projection (`updated_values` and `deleted_existing` identical). -/
theorem parse_changes_idempotent (L : List Change) (p : Projection)
    (h : parse_changes emptyProjection L = .ok p) : parse_changes p L = .ok p := by
  have h1 := parse_changes_merge L p emptyProjection
  rw [merge_emptyProjection] at h1
  rw [h1, h]
  simp [Except.map, merge_self]

/-- C6, witness for `parse_changes_idempotent` on the one-update log `[cUpdTitle]`. -/
theorem parse_changes_idempotent_witness :
    parse_changes emptyProjection [cUpdTitle] = .ok pTitle ∧
    parse_changes pTitle [cUpdTitle] = .ok pTitle :=
  ⟨rfl, parse_changes_idempotent [cUpdTitle] pTitle rfl⟩

/-- C8: last write wins.  For a log that ends with update `u2`, and contains
an earlier update `u1` on the same (model, object identity, field), the
folded projection holds exactly the decoded value of `u2` under that key —
the later change in log order overwrites the earlier one. -/
theorem parse_last_update_wins (A B : List Change) (u1 u2 : Change) (p : Projection)
    (mc : Option String) (opk : Option ObjPK) (fv : String)
    (h1 : u1.action = "update") (h2 : u2.action = "update")
    (hm1 : model_class u1 = .ok mc) (hm2 : model_class u2 = .ok mc)
    (hp1 : obj_pk u1 = .ok opk) (hp2 : obj_pk u2 = .ok opk)
    (hf : u1.field_name = u2.field_name) (hv : u2.field_value = some fv)
    (h : parse_changes emptyProjection (A ++ u1 :: (B ++ [u2])) = .ok p) :
    p.updated_values mc opk u2.field_name = some (jsonLoads fv) := by
  have hL : A ++ u1 :: (B ++ [u2]) = (A ++ u1 :: B) ++ [u2] := by simp
  rw [hL, parse_changes_append] at h
  cases hq : parse_changes emptyProjection (A ++ u1 :: B) with
  | error e => rw [hq] at h; exact absurd h (by simp)
  | ok q =>
    rw [hq] at h
    simp only [parse_changes] at h
    cases hr : _parse_change q u2 with
    | error e => rw [hr] at h; exact absurd h (by simp)
    | ok r =>
      rw [hr] at h
      simp only [parse_changes, Except.ok.injEq] at h
      subst h
      simp only [_parse_change, h2, if_pos] at hr
      rw [hm2, hp2, hv] at hr
      simp only [Except.ok.injEq] at hr
      rw [← hr]
      simp

/-- C8, witness for `parse_last_update_wins` on the two East-Wing updates of
Area 42, field "name". -/
theorem parse_last_update_wins_witness :
    parse_changes emptyProjection ([] ++ cUpdEW1 :: ([] ++ [cUpdEW2])) = .ok pEastWing ∧
    pEastWing.updated_values (some "Area") (some (.num 42)) cUpdEW2.field_name =
      some (jsonLoads "\x22East Wing 2\x22") :=
  ⟨rfl, parse_last_update_wins [] [] cUpdEW1 cUpdEW2 pEastWing (some "Area")
    (some (.num 42)) "\x22East Wing 2\x22" rfl rfl rfl rfl rfl rfl rfl rfl rfl⟩

/-- C2: evaluation at the failing input.  `add_create` tags a pending
creation with the creating CHANGE's id ("c7" for change 7), but `obj_pk` of a
later change loaded from the store that references that creation returns
"c" + the CHANGESET's id ("c1" for changeset 1) — `obj_pk` reads
`created_object.changeset_id` where the `obj` setter stores and parses the
change's own pk, so the identity does not round-trip. -/
theorem obj_pk_reports_changeset_id_bug :
    add_create_assigned_pk 7 = .str "c7" ∧
    cUpdOnCreated.created_object = some refCreate7 ∧ refCreate7.pk = 7 ∧
    obj_pk cUpdOnCreated = .ok (some (.str "c1")) ∧
    ObjPK.str "c1" ≠ ObjPK.str "c7" := by
  refine ⟨rfl, rfl, rfl, rfl, ?_⟩
  decide

/-- C4: appending to a proposed or applied ChangeSet always fails and nothing
is persisted — for every change, `Change.save` returns an error; when the
change passes validation and is new (`pk` unset), the error is the
uneditable-changeset `TypeError`, the code-level form of the spec's
`StateError`. -/
theorem save_on_uneditable_changeset_fails (st : MapStore) (cs : ChangeSet) (c : Change)
    (h : cs.proposed ≠ none ∨ cs.applied ≠ none) :
    (∃ e, Change.save st cs c = .error e) ∧
    (clean st c = .ok () → c.pk = none →
      Change.save st cs c =
        .error (.typeError "can not add change object to uneditable changeset.")) := by
  constructor
  · cases hc : clean st c with
    | error e => exact ⟨e, by simp [Change.save, hc]⟩
    | ok u =>
      by_cases hpk : c.pk = none
      · exact ⟨.typeError "can not add change object to uneditable changeset.",
          by simp [Change.save, hc, hpk, h]⟩
      · exact ⟨.typeError "change objects can not be edited.",
          by simp [Change.save, hc, hpk]⟩
  · intro hcl hpk
    simp [Change.save, hcl, hpk, h]

/-- C4, witness: the valid new delchange `cDelChangeValid` cannot be saved to
the proposed changeset `csProposed`. -/
theorem save_on_uneditable_changeset_fails_witness :
    (∃ e, Change.save stEmpty csProposed cDelChangeValid = .error e) ∧
    Change.save stEmpty csProposed cDelChangeValid =
      .error (.typeError "can not add change object to uneditable changeset.") := by
  have h := save_on_uneditable_changeset_fails stEmpty csProposed cDelChangeValid
    (Or.inl (by decide))
  exact ⟨h.1, h.2 rfl rfl⟩

/-- C5, counterexample: `clean` ACCEPTS an update with neither field name nor
field value — the claimed "update with no field name or field value is
rejected" rule is not implemented (`Change.clean` has no such check). -/
theorem clean_accepts_update_without_field_cex :
    cUpdNoField.action = "update" ∧ cUpdNoField.field_name = none ∧
    cUpdNoField.field_value = none ∧ clean stArea42 cUpdNoField = .ok () :=
  ⟨rfl, rfl, rfl, rfl⟩

/-- C5, amended: of the four claimed rejection rules, three hold — a
delete-change with any of model name, target reference, field name or field
value set is rejected with `ValidationError`; a delete-change referencing a
change of a different changeset is rejected; a create or delete carrying a
field name or value is rejected (provided its earlier checks pass).  The
fourth rule (update without field name/value) is not checked. -/
theorem clean_rejects_invalid_changes :
    (∀ (st : MapStore) (c : Change), c.action = "delchange" →
      (c.model_name ≠ none ∨ c.existing_object_pk ≠ none ∨ c.created_object ≠ none ∨
       c.field_name ≠ none ∨ c.field_value ≠ none) →
      ∃ m, clean st c = .error (.validationError m)) ∧
    (∀ (st : MapStore) (c : Change) (d : ChangeRef), c.action = "delchange" →
      c.deletes_change = some d → d.changeset_id ≠ c.changeset_id →
      clean st c =
        .error (.validationError "deletes_change refers to a change from a different changeset.")) ∧
    (∀ (st : MapStore) (c : Change), (c.action = "create" ∨ c.action = "delete") →
      (c.action = "create" → ∃ mc, model_class c = .ok mc) →
      (c.action = "delete" → ∃ w, obj st c = .ok w) →
      c.deletes_change = none → c.model_name ≠ none →
      (c.field_name ≠ none ∨ c.field_value ≠ none) →
      ∃ m, clean st c = .error (.validationError m)) := by
  refine ⟨?_, ?_, ?_⟩
  · intro st c h hf
    cases hd : c.deletes_change with
    | none =>
      exact ⟨"deletes_change has to be set if action is delchange.", by simp [clean, h, hd]⟩
    | some d =>
      by_cases hcs : d.changeset_id = c.changeset_id
      · by_cases hm1 : c.model_name = none
        · by_cases hm2 : c.existing_object_pk = none
          · by_cases hm3 : c.created_object = none
            · by_cases hm4 : c.field_name = none
              · by_cases hm5 : c.field_value = none
                · exfalso
                  rcases hf with hf | hf | hf | hf | hf <;> exact hf (by assumption)
                · exact ⟨"field_value must not be set if action is delchange.",
                    by simp [clean, h, hd, hcs, hm1, hm2, hm3, hm4, hm5]⟩
              · exact ⟨"field_name must not be set if action is delchange.",
                  by simp [clean, h, hd, hcs, hm1, hm2, hm3, hm4]⟩
            · exact ⟨"created_object must not be set if action is delchange.",
                by simp [clean, h, hd, hcs, hm1, hm2, hm3]⟩
          · exact ⟨"existing_object_pk must not be set if action is delchange.",
              by simp [clean, h, hd, hcs, hm1, hm2]⟩
        · exact ⟨"model_name must not be set if action is delchange.",
            by simp [clean, h, hd, hcs, hm1]⟩
      · exact ⟨"deletes_change refers to a change from a different changeset.",
          by simp [clean, h, hd, hcs]⟩
  · intro st c d h hd hne
    simp [clean, h, hd, hne]
  · intro st c hcd hcr hdr hdel hm hf
    rcases hcd with hc | hc
    · obtain ⟨mc, hmc⟩ := hcr hc
      by_cases hfn : c.field_name = none
      · rcases hf with hf | hf
        · exact absurd hfn hf
        · exact ⟨"field_value must not be set if action is create or delete.",
            by simp [clean, hc, hdel, hm, hmc, Except.map, hfn, hf]⟩
      · exact ⟨"field_name must not be set if action is create or delete.",
          by simp [clean, hc, hdel, hm, hmc, Except.map, hfn]⟩
    · obtain ⟨w, hw⟩ := hdr hc
      by_cases hfn : c.field_name = none
      · rcases hf with hf | hf
        · exact absurd hfn hf
        · exact ⟨"field_value must not be set if action is create or delete.",
            by simp [clean, hc, hdel, hm, hw, Except.map, hfn, hf]⟩
      · exact ⟨"field_name must not be set if action is create or delete.",
          by simp [clean, hc, hdel, hm, hw, Except.map, hfn]⟩

/-- C5, witness for `clean_rejects_invalid_changes` at three concrete invalid
changes: a delchange carrying a model name, a delchange referencing another
changeset, and a create carrying a field name. -/
theorem clean_rejects_invalid_changes_witness :
    (∃ m, clean stEmpty cDelChangeWithModel = .error (.validationError m)) ∧
    clean stEmpty cDelChangeCross =
      .error (.validationError "deletes_change refers to a change from a different changeset.") ∧
    (∃ m, clean stEmpty cCreateWithField = .error (.validationError m)) := by
  refine ⟨?_, ?_, ?_⟩
  · exact clean_rejects_invalid_changes.1 stEmpty cDelChangeWithModel rfl
      (Or.inl (by decide))
  · exact clean_rejects_invalid_changes.2.1 stEmpty cDelChangeCross
      { pk := 9, changeset_id := 2, model_name := none, action := "update" } rfl rfl (by decide)
  · exact clean_rejects_invalid_changes.2.2 stEmpty cCreateWithField (Or.inl rfl)
      (fun _ => ⟨some "POI", rfl⟩) (fun hdel => absurd hdel (by decide)) rfl (by decide)
      (Or.inl (by decide))

/-- C9, counterexample: validating a delete of Area 42 against a store from
which that record has been removed fails with the generic `ValidationError`
(message "existing object does not exist.") — the code has no distinct
`NotFoundError`; `ObjectDoesNotExist` from the store lookup is converted into
a `ValidationError` by `Change.clean`. -/
theorem clean_missing_object_cex :
    clean stEmpty cDel42 = .error (.validationError "existing object does not exist.") := rfl

/-- C9, amended: for every change targeting a persisted identity whose
canonical record is absent from the store, `clean` fails with
`ValidationError` carrying the message "existing object does not exist."
(not a separate not-found error class). -/
theorem clean_missing_object_validation_error (st : MapStore) (c : Change) (m : String)
    (epk : Nat) (ha : c.action ≠ "delchange") (hac : c.action ≠ "create")
    (hdel : c.deletes_change = none) (hm : c.model_name = some m)
    (hmem : m ∈ mapdataModelNames) (hso : c.set_object = none)
    (he : c.existing_object_pk = some epk) (hco : c.created_object = none)
    (hst : (m, epk) ∉ st.objects) :
    clean st c = .error (.validationError "existing object does not exist.") := by
  have hobj : obj st c = .error .objectDoesNotExist := by
    simp [obj, hso, he, hco, model_class, hm, hmem, hst]
  simp [clean, ha, hac, hdel, hm, hobj, Except.map]

/-- C9, witness for `clean_missing_object_validation_error` at the concrete
delete of Area 42 against the empty store. -/
theorem clean_missing_object_validation_error_witness :
    ("Area", 42) ∉ stEmpty.objects ∧
    clean stEmpty cDel42 = .error (.validationError "existing object does not exist.") :=
  ⟨by decide, clean_missing_object_validation_error stEmpty cDel42 "Area" 42 (by decide)
    (by decide) rfl rfl (by decide) rfl rfl rfl (by decide)⟩

/-- C7, counterexample: with no session reference and authenticated user 5,
`get_for_request` resumes the user's most recent changeset even though its
`proposed` timestamp is set — `qs_base` only filters `applied__isnull`, so a
proposed (but unapplied) changeset is resumed, contrary to the claim that it
never is. -/
theorem get_for_request_resumes_proposed_cex :
    get_for_request [csProposed] (some 5) none = .fromRecent csProposed ∧
    csProposed.proposed = some 99 := ⟨rfl, rfl⟩

/-- C7, amended: with no valid session reference and an authenticated author,
`get_for_request` resumes the author's most recent changeset whose `applied`
timestamp is unset (its `proposed` timestamp is not consulted): the resumed
changeset belongs to the store, is unapplied, belongs to the author, and no
unapplied changeset of the author is more recent. -/
theorem get_for_request_recent_only_unapplied (db : List ChangeSet) (u : Nat) (cs : ChangeSet)
    (h : get_for_request db (some u) none = .fromRecent cs) :
    cs ∈ db ∧ cs.applied = none ∧ cs.author = some u ∧
    ∀ cs2 ∈ db, cs2.applied = none → cs2.author = some u → cs2.created ≤ cs.created := by
  simp only [get_for_request] at h
  cases hf : first_by_created_desc
      ((qs_for_request db (some u)).filter (fun x => x.author == some u)) with
  | none => rw [hf] at h; exact absurd h (by simp)
  | some cs3 =>
    rw [hf] at h
    simp only [ResolvedChangeSet.fromRecent.injEq] at h
    subst h
    obtain ⟨hmem, hbound⟩ := first_by_created_desc_spec _ _ hf
    rw [List.mem_filter] at hmem
    obtain ⟨hq, hauth⟩ := hmem
    simp only [qs_for_request, qs_base, if_pos, List.mem_filter] at hq
    obtain ⟨⟨hdb, happ⟩, _⟩ := hq
    refine ⟨hdb, by simpa using happ, by simpa using hauth, ?_⟩
    intro cs2 hdb2 happ2 hauth2
    apply hbound
    rw [List.mem_filter]
    refine ⟨?_, by simp [hauth2]⟩
    simp only [qs_for_request, qs_base, if_pos, List.mem_filter]
    exact ⟨⟨hdb2, by simp [happ2]⟩, by simp [hauth2]⟩

/-- C7, witness for `get_for_request_recent_only_unapplied` with a single
open changeset of user 5. -/
theorem get_for_request_recent_only_unapplied_witness :
    get_for_request [csOpen] (some 5) none = .fromRecent csOpen ∧
    (csOpen ∈ [csOpen] ∧ csOpen.applied = none ∧ csOpen.author = some 5 ∧
     ∀ cs2 ∈ [csOpen], cs2.applied = none → cs2.author = some 5 →
       cs2.created ≤ csOpen.created) :=
  ⟨rfl, get_for_request_recent_only_unapplied [csOpen] 5 csOpen rfl⟩

/-- C10: after every successful `obj` setter call the produced change caches
the wrapper and holds exactly one target reference — a numeric (persisted)
target stores `existing_object_pk` and clears `created_object`, a string
(pending-creation) target stores `created_object` and clears
`existing_object_pk` — and reading `obj` on a change with both references
set (and no cached object, the only way both can be set) fails with
`TypeError`. -/
theorem obj_target_exclusive :
    (∀ (changeStore : List ChangeRef) (c : Change) (v : ModelInstanceWrapper) (c2 : Change),
      obj_setter changeStore c v = .ok c2 →
      c2.set_object = some v ∧
      (∀ n, v.pk = some (.num n) → c2.existing_object_pk = some n ∧ c2.created_object = none) ∧
      (∀ s, v.pk = some (.str s) →
        c2.existing_object_pk = none ∧ ∃ r, c2.created_object = some r) ∧
      ((∃ n, c2.existing_object_pk = some n) ∧ c2.created_object = none ∨
       c2.existing_object_pk = none ∧ ∃ r, c2.created_object = some r)) ∧
    (∀ (st : MapStore) (c : Change), c.set_object = none → c.existing_object_pk ≠ none →
      c.created_object ≠ none →
      obj st c =
        .error (.typeError "existing_object_pk and created_object can not both be set.")) := by
  constructor
  · intro changeStore c v c2 h
    cases hv : v.pk with
    | none =>
      cases h1 : model_class c with
      | error e => simp [obj_setter, hv, h1] at h
      | ok b =>
        cases h2 : model_class_setter c (some v.model_name) with
        | error e => simp [obj_setter, hv, h1, h2] at h
        | ok c1 => simp [obj_setter, hv, h1, h2] at h
    | some opk =>
      cases opk with
      | str s =>
        by_cases hcs : v.changeset_id = c.changeset_id
        · cases h2 : model_class_setter c (some v.model_name) with
          | error e => simp [obj_setter, hv, hcs, h2] at h
          | ok c1 =>
            cases h3 : pyInt? s.data.tail with
            | none => simp [obj_setter, hv, hcs, h2, h3] at h
            | some n =>
              cases h4 : changeStore.find? (fun r => r.pk == n) with
              | none => simp [obj_setter, hv, hcs, h2, h3, h4] at h
              | some r =>
                simp only [obj_setter, hv, hcs, ne_eq, not_true_eq_false, if_false, h2,
                  List.drop_one, h3, h4, Except.ok.injEq] at h
                subst h
                refine ⟨rfl, ?_, ?_, Or.inr ⟨rfl, r, rfl⟩⟩
                · intro n2 hn2; simp at hn2
                · intro s2 _; exact ⟨rfl, r, rfl⟩
        · simp [obj_setter, hv, hcs] at h
      | num n =>
        cases h1 : model_class c with
        | error e => simp [obj_setter, hv, h1] at h
        | ok b =>
          cases h2 : model_class_setter c (some v.model_name) with
          | error e => simp [obj_setter, hv, h1, h2] at h
          | ok c1 =>
            simp only [obj_setter, hv, h1, h2, Except.ok.injEq] at h
            subst h
            refine ⟨rfl, ?_, ?_, Or.inl ⟨⟨n, rfl⟩, rfl⟩⟩
            · intro n2 hn2
              simp only [Option.some.injEq, ObjPK.num.injEq] at hn2
              subst hn2
              exact ⟨rfl, rfl⟩
            · intro s2 hs2; simp at hs2
  · intro st c h1 h2 h3
    obtain ⟨epk, he⟩ := Option.ne_none_iff_exists'.mp h2
    obtain ⟨r, hr⟩ := Option.ne_none_iff_exists'.mp h3
    simp [obj, h1, he, hr]

/-- C10, witness for `obj_target_exclusive`: assigning the pending creation
"c7" to a fresh change clears `existing_object_pk` and stores
`created_object`, and reading `obj` on the inconsistent `cBothSet` fails. -/
theorem obj_target_exclusive_witness :
    obj_setter [refCreate7] noChange wCreated = .ok cAfterSetter ∧
    cAfterSetter.set_object = some wCreated ∧
    cAfterSetter.existing_object_pk = none ∧ (∃ r, cAfterSetter.created_object = some r) ∧
    obj stEmpty cBothSet =
      .error (.typeError "existing_object_pk and created_object can not both be set.") := by
  have h := obj_target_exclusive.1 [refCreate7] noChange wCreated cAfterSetter rfl
  exact ⟨rfl, h.1, (h.2.2.1 "c7" rfl).1, (h.2.2.1 "c7" rfl).2,
    obj_target_exclusive.2 stEmpty cBothSet rfl (by decide) (by decide)⟩
